import Mathlib

/-!
Shallow embedding of the SPARC/Solaris atomic facade
(`src/hotspot/src/os_cpu/solaris_sparc/vm/atomic_solaris_sparc.hpp`).

Memory locations are modelled by their current contents: a `w`-bit
two's-complement bit pattern represented as a natural number below `2 ^ w`.
Each operation is a pure function from its arguments and the prior contents
to the pair `(new contents, returned value)`; operations returning `void`
yield just the new contents.  The hardware primitives declared `extern "C"`
in the header are implemented in `solaris_sparc.il`, which is outside the
sources; they are modelled from the specification (section 6 table and the
glossary entries for CAS, fetch-add and swap).
-/

namespace AtomicSolarisSparc

/-- Two's-complement wraparound: the `w`-bit bit pattern of the integer `n`,
as a natural number below `2 ^ w`. -/
def iwrap (w : Nat) (n : Int) : Nat := (n % ((2 : Int) ^ w)).toNat

/-- Modelled from the spec: `cmpxchg_memory_order`, the ordering-hint
parameter accepted by `cmpxchg`; its declaration lives outside the given
sources.  The spec says it is accepted but not honored on this backend. -/
inductive cmpxchg_memory_order
| memory_order_relaxed
| memory_order_conservative

/-- Modelled from the spec: the 32-bit hardware swap primitive
`_Atomic_swap32` from `solaris_sparc.il` (not among the given sources):
stores the new 32-bit value and returns the previous contents. -/
def Atomic_swap32 (exchange_value v : Nat) : Nat × Nat :=
  (exchange_value % 2 ^ 32, v)

/-- Modelled from the spec: the pointer-width (64-bit) hardware swap
primitive `_Atomic_swap64` from `solaris_sparc.il`: stores the new value
and returns the previous contents. -/
def Atomic_swap64 (exchange_value v : Nat) : Nat × Nat :=
  (exchange_value % 2 ^ 64, v)

/-- Modelled from the spec: the 32-bit hardware compare-and-swap primitive
`_Atomic_cas32` from `solaris_sparc.il`: writes the exchange value only when
the current contents bit-for-bit equal the compare value, and returns the
prior contents regardless of outcome. -/
def Atomic_cas32 (exchange_value v compare_value : Nat) : Nat × Nat :=
  if v = compare_value then (exchange_value % 2 ^ 32, v) else (v, v)

/-- Modelled from the spec: the pointer-width (64-bit) hardware
compare-and-swap primitive `_Atomic_cas64` from `solaris_sparc.il`: writes
the exchange value only when the current contents bit-for-bit equal the
compare value, and returns the prior contents regardless of outcome. -/
def Atomic_cas64 (exchange_value v compare_value : Nat) : Nat × Nat :=
  if v = compare_value then (exchange_value % 2 ^ 64, v) else (v, v)

/-- Modelled from the spec: the wide-int (64-bit `jlong`) hardware
compare-and-swap primitive `_Atomic_casl` from `solaris_sparc.il`.  It is
declared by the facade but, as the spec notes, no facade operation calls it. -/
def Atomic_casl (exchange_value v compare_value : Nat) : Nat × Nat :=
  if v = compare_value then (exchange_value % 2 ^ 64, v) else (v, v)

/-- Modelled from the spec: the 32-bit hardware fetch-add primitive
`_Atomic_add32` from `solaris_sparc.il`: adds the delta to the contents with
32-bit two's-complement wraparound and returns the resulting (post-add)
value. -/
def Atomic_add32 (inc : Int) (v : Nat) : Nat × Nat :=
  (iwrap 32 ((v : Int) + inc), iwrap 32 ((v : Int) + inc))

/-- Modelled from the spec: the pointer-width (64-bit) hardware fetch-add
primitive `_Atomic_add64` from `solaris_sparc.il`: adds the delta to the
contents with 64-bit wraparound and returns the resulting (post-add) value. -/
def Atomic_add64 (add_value : Int) (v : Nat) : Nat × Nat :=
  (iwrap 64 ((v : Int) + add_value), iwrap 64 ((v : Int) + add_value))

namespace Atomic

/-- `Atomic::store(jbyte, volatile jbyte*)`: plain assignment of the 8-bit
value; the result is the new contents of the location. -/
def store_jbyte (store_value : Nat) (_v : Nat) : Nat := store_value

/-- `Atomic::store(jshort, volatile jshort*)`: plain assignment. -/
def store_jshort (store_value : Nat) (_v : Nat) : Nat := store_value

/-- `Atomic::store(jint, volatile jint*)`: plain assignment. -/
def store_jint (store_value : Nat) (_v : Nat) : Nat := store_value

/-- `Atomic::store_ptr(intptr_t, volatile intptr_t*)`: plain assignment. -/
def store_ptr_intptr (store_value : Nat) (_v : Nat) : Nat := store_value

/-- `Atomic::store_ptr(void*, volatile void*)`: plain assignment of the
pointer bit pattern. -/
def store_ptr_void (store_value : Nat) (_v : Nat) : Nat := store_value

/-- `Atomic::store(jlong, volatile jlong*)`: plain assignment. -/
def store_jlong (store_value : Nat) (_v : Nat) : Nat := store_value

/-- `Atomic::load(const volatile jlong*)`: returns the current contents. -/
def load_jlong (v : Nat) : Nat := v

/-- `Atomic::add(jint, volatile jint*)`: forwards to `_Atomic_add32`. -/
def add (add_value : Int) (v : Nat) : Nat × Nat := Atomic_add32 add_value v

/-- `Atomic::add_ptr(intptr_t, volatile intptr_t*)`: forwards to
`_Atomic_add64`. -/
def add_ptr (add_value : Int) (v : Nat) : Nat × Nat := Atomic_add64 add_value v

/-- `Atomic::add_ptr(intptr_t, volatile void*)`: casts the location to
`volatile intptr_t*` (identity on the bit pattern) and forwards to the
`intptr_t` overload. -/
def add_ptr_void (add_value : Int) (v : Nat) : Nat × Nat := add_ptr add_value v

/-- `Atomic::inc(volatile jint*)`: calls `add(1, dest)` and discards the
returned value; the result is the new contents. -/
def inc (v : Nat) : Nat := (add 1 v).1

/-- `Atomic::inc_ptr(volatile intptr_t*)`: calls `add_ptr(1, dest)` and
discards the returned value. -/
def inc_ptr (v : Nat) : Nat := (add_ptr 1 v).1

/-- `Atomic::inc_ptr(volatile void*)`: calls `add_ptr(1, dest)` on the
reinterpreted location and discards the returned value. -/
def inc_ptr_void (v : Nat) : Nat := (add_ptr_void 1 v).1

/-- `Atomic::dec(volatile jint*)`: calls `add(-1, dest)` and discards the
returned value. -/
def dec (v : Nat) : Nat := (add (-1) v).1

/-- `Atomic::dec_ptr(volatile intptr_t*)`: calls `add_ptr(-1, dest)` and
discards the returned value. -/
def dec_ptr (v : Nat) : Nat := (add_ptr (-1) v).1

/-- `Atomic::dec_ptr(volatile void*)`: calls `add_ptr(-1, dest)` on the
reinterpreted location and discards the returned value. -/
def dec_ptr_void (v : Nat) : Nat := (add_ptr_void (-1) v).1

/-- `Atomic::xchg(jint, volatile jint*)`: forwards to `_Atomic_swap32`. -/
def xchg (exchange_value v : Nat) : Nat × Nat := Atomic_swap32 exchange_value v

/-- `Atomic::xchg_ptr(intptr_t, volatile intptr_t*)`: forwards to
`_Atomic_swap64`. -/
def xchg_ptr (exchange_value v : Nat) : Nat × Nat :=
  Atomic_swap64 exchange_value v

/-- `Atomic::xchg_ptr(void*, volatile void*)`: casts the arguments to
`intptr_t` (identity on bit patterns) and forwards to the `intptr_t`
overload. -/
def xchg_ptr_void (exchange_value v : Nat) : Nat × Nat :=
  xchg_ptr exchange_value v

/-- `Atomic::cmpxchg(jint, volatile jint*, jint, cmpxchg_memory_order)`:
ignores the order argument and forwards to `_Atomic_cas32`. -/
def cmpxchg_jint (exchange_value v compare_value : Nat)
    (_o : cmpxchg_memory_order) : Nat × Nat :=
  Atomic_cas32 exchange_value v compare_value

/-- `Atomic::cmpxchg(jlong, volatile jlong*, jlong, cmpxchg_memory_order)`:
casts the `jlong` arguments to `intptr_t` (identity on 64-bit bit patterns),
ignores the order argument and forwards to `_Atomic_cas64`. -/
def cmpxchg_jlong (exchange_value v compare_value : Nat)
    (_o : cmpxchg_memory_order) : Nat × Nat :=
  Atomic_cas64 exchange_value v compare_value

/-- `Atomic::cmpxchg_ptr(intptr_t, volatile intptr_t*, intptr_t,
cmpxchg_memory_order)`: ignores the order argument and forwards to
`_Atomic_cas64`. -/
def cmpxchg_ptr (exchange_value v compare_value : Nat)
    (_o : cmpxchg_memory_order) : Nat × Nat :=
  Atomic_cas64 exchange_value v compare_value

/-- `Atomic::cmpxchg_ptr(void*, volatile void*, void*,
cmpxchg_memory_order)`: casts the pointer arguments to `intptr_t` (identity
on bit patterns) and forwards to the `intptr_t` overload, passing the order
through. -/
def cmpxchg_ptr_void (exchange_value v compare_value : Nat)
    (o : cmpxchg_memory_order) : Nat × Nat :=
  cmpxchg_ptr exchange_value v compare_value o

end Atomic


/-- Casting a natural number into `iwrap` reduces to the natural modulus. -/
theorem iwrap_natCast (w v : Nat) : iwrap w (v : Int) = v % 2 ^ w := by
  have h : ((v : Int) % ((2 : Int) ^ w)) = ((v % 2 ^ w : Nat) : Int) := by
    push_cast
    rfl
  unfold iwrap
  rw [h]
  omega

/-- C1: for each of the four cmpxchg overloads (jint, jlong, intptr_t,
void*), when the location holds the expected value the operation returns
that prior value and leaves the new value in the location; when the current
contents differ from the expected value it returns the current contents and
leaves the location unchanged.  The return is always the prior value, never
a boolean. -/
theorem cmpxchg_prior_value_contract (n32 n64 v c : Nat)
    (o : cmpxchg_memory_order) (h32 : n32 < 2 ^ 32) (h64 : n64 < 2 ^ 64) :
    (Atomic.cmpxchg_jint n32 v v o = (n32, v)
      ∧ Atomic.cmpxchg_jlong n64 v v o = (n64, v)
      ∧ Atomic.cmpxchg_ptr n64 v v o = (n64, v)
      ∧ Atomic.cmpxchg_ptr_void n64 v v o = (n64, v))
    ∧ (v ≠ c →
        Atomic.cmpxchg_jint n32 v c o = (v, v)
        ∧ Atomic.cmpxchg_jlong n64 v c o = (v, v)
        ∧ Atomic.cmpxchg_ptr n64 v c o = (v, v)
        ∧ Atomic.cmpxchg_ptr_void n64 v c o = (v, v)) := by
  constructor
  · simp [Atomic.cmpxchg_jint, Atomic.cmpxchg_jlong, Atomic.cmpxchg_ptr,
      Atomic.cmpxchg_ptr_void, Atomic_cas32, Atomic_cas64]
    omega
  · intro hne
    simp [Atomic.cmpxchg_jint, Atomic.cmpxchg_jlong, Atomic.cmpxchg_ptr,
      Atomic.cmpxchg_ptr_void, Atomic_cas32, Atomic_cas64, hne]

/-- C1 witness: a successful and a failing compare-and-swap at concrete
values. -/
theorem cmpxchg_prior_value_contract_witness :
    Atomic.cmpxchg_jint 5 7 7 cmpxchg_memory_order.memory_order_conservative
      = (5, 7)
    ∧ Atomic.cmpxchg_jint 5 7 9 cmpxchg_memory_order.memory_order_conservative
      = (7, 7) := by
  have h := cmpxchg_prior_value_contract 5 6 7 9
    cmpxchg_memory_order.memory_order_conservative (by norm_num) (by norm_num)
  exact ⟨h.1.1, (h.2 (by norm_num)).1⟩

/-- C2: xchg (and xchg_ptr for pointer widths) stores the new value into the
location and returns the value the location held immediately before. -/
theorem xchg_returns_prior (x32 x64 v : Nat) (h32 : x32 < 2 ^ 32)
    (h64 : x64 < 2 ^ 64) :
    Atomic.xchg x32 v = (x32, v)
    ∧ Atomic.xchg_ptr x64 v = (x64, v)
    ∧ Atomic.xchg_ptr_void x64 v = (x64, v) := by
  simp [Atomic.xchg, Atomic.xchg_ptr, Atomic.xchg_ptr_void, Atomic_swap32,
    Atomic_swap64]
  omega

/-- C2 witness: a concrete exchange. -/
theorem xchg_returns_prior_witness :
    Atomic.xchg 5 9 = (5, 9) ∧ Atomic.xchg_ptr 6 9 = (6, 9) := by
  have h := xchg_returns_prior 5 6 9 (by norm_num) (by norm_num)
  exact ⟨h.1, h.2.1⟩

/-- C3: add (and add_ptr) leaves the location holding the two's-complement
sum of the old value and the delta and returns that post-add sum (the new
contents, not the pre-add value); when the sum fits the width it is exactly
old + delta. -/
theorem add_returns_post_add (d : Int) (v : Nat) :
    Atomic.add d v = (iwrap 32 ((v : Int) + d), iwrap 32 ((v : Int) + d))
    ∧ Atomic.add_ptr d v = (iwrap 64 ((v : Int) + d), iwrap 64 ((v : Int) + d))
    ∧ Atomic.add_ptr_void d v = Atomic.add_ptr d v
    ∧ (∀ s : Nat, (v : Int) + d = (s : Int) → s < 2 ^ 32 →
        Atomic.add d v = (s, s)) := by
  refine ⟨rfl, rfl, rfl, fun s hs hlt => ?_⟩
  simp only [Atomic.add, Atomic_add32, hs, iwrap_natCast]
  have hm : s % 2 ^ 32 = s := Nat.mod_eq_of_lt hlt
  rw [hm]

/-- C3 witness: a concrete fetch-add returning the post-add sum. -/
theorem add_returns_post_add_witness : Atomic.add 1 41 = (42, 42) :=
  (add_returns_post_add 1 41).2.2.2 42 (by norm_num) (by norm_num)

/-- C4: inc and dec (all overloads) leave the location in exactly the state
that add with delta 1 and -1 leaves it in; they merely discard the returned
value. -/
theorem inc_dec_equiv_add (v : Nat) :
    Atomic.inc v = (Atomic.add 1 v).1
    ∧ Atomic.dec v = (Atomic.add (-1) v).1
    ∧ Atomic.inc_ptr v = (Atomic.add_ptr 1 v).1
    ∧ Atomic.dec_ptr v = (Atomic.add_ptr (-1) v).1
    ∧ Atomic.inc_ptr_void v = (Atomic.add_ptr_void 1 v).1
    ∧ Atomic.dec_ptr_void v = (Atomic.add_ptr_void (-1) v).1 :=
  ⟨rfl, rfl, rfl, rfl, rfl, rfl⟩

/-- C5: every raw-pointer (void*) overload returns a bit-identical result
and leaves bit-identical contents as the pointer-width-integer overload on
the same bit patterns, since it merely reinterprets and forwards. -/
theorem ptr_overloads_bit_identical (x v c : Nat) (d : Int)
    (o : cmpxchg_memory_order) :
    Atomic.store_ptr_void x v = Atomic.store_ptr_intptr x v
    ∧ Atomic.add_ptr_void d v = Atomic.add_ptr d v
    ∧ Atomic.xchg_ptr_void x v = Atomic.xchg_ptr x v
    ∧ Atomic.cmpxchg_ptr_void x v c o = Atomic.cmpxchg_ptr x v c o
    ∧ Atomic.inc_ptr_void v = Atomic.inc_ptr v
    ∧ Atomic.dec_ptr_void v = Atomic.dec_ptr v :=
  ⟨rfl, rfl, rfl, rfl, rfl, rfl⟩

/-- C6: two cmpxchg calls (any overload) differing only in the memory-order
argument produce the same return value and the same final contents: the
ordering hint does not influence behaviour on this backend. -/
theorem cmpxchg_order_noninterference (x v c : Nat)
    (o1 o2 : cmpxchg_memory_order) :
    Atomic.cmpxchg_jint x v c o1 = Atomic.cmpxchg_jint x v c o2
    ∧ Atomic.cmpxchg_jlong x v c o1 = Atomic.cmpxchg_jlong x v c o2
    ∧ Atomic.cmpxchg_ptr x v c o1 = Atomic.cmpxchg_ptr x v c o2
    ∧ Atomic.cmpxchg_ptr_void x v c o1 = Atomic.cmpxchg_ptr_void x v c o2 :=
  ⟨rfl, rfl, rfl, rfl⟩

/-- C7: a 64-bit store followed by a load with no intervening write returns
exactly the stored value. -/
theorem store_load_round_trip (n v : Nat) :
    Atomic.load_jlong (Atomic.store_jlong n v) = n := rfl

/-- C8: the maximum and minimum representable bit patterns of each width
round-trip unchanged through store (and, for jlong, through load), and add
wraps on overflow modulo 2 to the width in two's-complement fashion; in
particular a 32-bit add of a natural delta leaves (V + D) mod 2 ^ 32. -/
theorem boundary_round_trip_and_add_wrap :
    (∀ v : Nat, Atomic.load_jlong (Atomic.store_jlong 9223372036854775807 v)
        = 9223372036854775807
      ∧ Atomic.load_jlong (Atomic.store_jlong 9223372036854775808 v)
        = 9223372036854775808)
    ∧ (∀ v : Nat, Atomic.store_jbyte 127 v = 127
      ∧ Atomic.store_jbyte 128 v = 128)
    ∧ (∀ v : Nat, Atomic.store_jshort 32767 v = 32767
      ∧ Atomic.store_jshort 32768 v = 32768)
    ∧ (∀ v : Nat, Atomic.store_jint 2147483647 v = 2147483647
      ∧ Atomic.store_jint 2147483648 v = 2147483648)
    ∧ (∀ v : Nat, Atomic.store_ptr_intptr 9223372036854775807 v
        = 9223372036854775807
      ∧ Atomic.store_ptr_intptr 9223372036854775808 v = 9223372036854775808)
    ∧ (∀ v d : Nat, (Atomic.add (d : Int) v).1 = (v + d) % 2 ^ 32)
    ∧ (Atomic.add 1 (2 ^ 32 - 1)).1 = 0
    ∧ (Atomic.add 1 (2 ^ 31 - 1)).1 = 2 ^ 31 := by
  refine ⟨fun v => ⟨rfl, rfl⟩, fun v => ⟨rfl, rfl⟩, fun v => ⟨rfl, rfl⟩,
    fun v => ⟨rfl, rfl⟩, fun v => ⟨rfl, rfl⟩, fun v d => ?_, ?_, ?_⟩
  · have hc : ((v : Int) + (d : Int)) = ((v + d : Nat) : Int) := by
      push_cast
      ring
    simp only [Atomic.add, Atomic_add32]
    rw [hc, iwrap_natCast]
  · simp only [Atomic.add, Atomic_add32, iwrap]
    omega
  · simp only [Atomic.add, Atomic_add32, iwrap]
    omega

/-- C9: the jlong cmpxchg overload is implemented by casting to pointer
width and calling the pointer-width CAS primitive, so it is extensionally
bit-identical to cmpxchg_ptr on the same bit patterns. -/
theorem cmpxchg_jlong_via_cas64 (x v c : Nat) (o : cmpxchg_memory_order) :
    Atomic.cmpxchg_jlong x v c o = Atomic_cas64 x v c
    ∧ Atomic.cmpxchg_jlong x v c o = Atomic.cmpxchg_ptr x v c o :=
  ⟨rfl, rfl⟩

/-- C10: inc_ptr and dec_ptr on a void* location change the stored bit
pattern by exactly +1 and -1 (with 64-bit wraparound), not by any scaled
pointee size. -/
theorem inc_ptr_dec_ptr_unit_step (v : Nat) (h : v < 2 ^ 64) :
    Atomic.inc_ptr_void v = (v + 1) % 2 ^ 64
    ∧ (0 < v → Atomic.dec_ptr_void v = v - 1)
    ∧ Atomic.dec_ptr_void 0 = 2 ^ 64 - 1 := by
  refine ⟨?_, fun hv => ?_, ?_⟩
  · have hc : ((v : Int) + 1) = ((v + 1 : Nat) : Int) := by
      push_cast
      ring
    simp only [Atomic.inc_ptr_void, Atomic.add_ptr_void, Atomic.add_ptr,
      Atomic_add64]
    rw [hc, iwrap_natCast]
  · simp only [Atomic.dec_ptr_void, Atomic.add_ptr_void, Atomic.add_ptr,
      Atomic_add64, iwrap]
    omega
  · simp only [Atomic.dec_ptr_void, Atomic.add_ptr_void, Atomic.add_ptr,
      Atomic_add64, iwrap]
    omega

/-- C10 witness: concrete unit steps on a pointer bit pattern. -/
theorem inc_ptr_dec_ptr_unit_step_witness :
    Atomic.inc_ptr_void 10 = (10 + 1) % 2 ^ 64
    ∧ Atomic.dec_ptr_void 10 = 10 - 1 := by
  have h := inc_ptr_dec_ptr_unit_step 10 (by norm_num)
  exact ⟨h.1, h.2.1 (by norm_num)⟩

end AtomicSolarisSparc
